import Mathlib

/-!
Shallow embedding of the F1 Race Replay backend
(`src/backend/main.py` and `src/backend/services/f1_data_service.py`).

The backend is a thin façade over the external `fastf1` library.  We embed
the repository's own logic faithfully: Python lists become `List`,
pandas missing values (`NaN`/`NaT`) become `Option`, numeric telemetry
values are modelled as `Int`, dictionaries returned by the service layer
become Lean structures whose optional keys are `Option` fields, and the
external library calls (`pick_fastest`, `Lap.get_telemetry`,
`Session.load`) are passed in as oracle parameters.  Python's extended
slice `lst[::n]` is modelled by `everyNth`, and Python truthiness of
optional arguments by `pyTruthy` / `pyStrTruthy`.
-/

namespace F1

/-- Helper for Python extended slicing: keep the head when the skip
counter is `0` (then reset it to `n - 1`), else decrement it. -/
def everyNthAux : List α → Nat → Nat → List α
  | [], _, _ => []
  | x :: xs, n, 0 => x :: everyNthAux xs n (n - 1)
  | _ :: xs, n, k + 1 => everyNthAux xs n k

/-- Python extended slicing `lst[::n]` for a step `n ≥ 1`: the elements at
indices `0, n, 2n, …`.  (The backend only ever calls this with
`n = max 1 (len // target)`, hence `n ≥ 1`.) -/
def everyNth (l : List α) (n : Nat) : List α := everyNthAux l n 0

/-- Python truthiness of an `Optional[int]` argument: `None` and `0` are
falsy, every other integer is truthy (`if lap_number:` in
`get_lap_telemetry`). -/
def pyTruthy : Option Int → Bool
  | none => false
  | some n => n != 0

/-- Python truthiness of an `Optional[str]` argument: `None` and the empty
string are falsy (`if driver_code:` in `get_all_laps`). -/
def pyStrTruthy : Option String → Bool
  | none => false
  | some s => s != ""

/-- Python `min` over a nonempty list, `min(x₀, x₁, …)` folded from the
left as the builtin does. -/
def pyMin (x : Int) (xs : List Int) : Int := xs.foldl min x

/-- Python `max` over a nonempty list. -/
def pyMax (x : Int) (xs : List Int) : Int := xs.foldl max x

/-- pandas `Series.unique()`: distinct values in order of first
occurrence. -/
def uniqueFirst : List String → List String
  | [] => []
  | x :: xs => x :: uniqueFirst (xs.filter (fun y => y ≠ x))
termination_by l => l.length
decreasing_by
  simp only [List.length_cons]
  exact Nat.lt_succ_of_le (List.length_filter_le _ _)

/-- Python `str.upper()` (driver codes and session types are ASCII),
written over the character data so that it evaluates by `decide`. -/
def pyUpper (s : String) : String := String.mk (s.data.map Char.toUpper)

/-- `str()` of a pandas `Timedelta` of `ms` milliseconds, in pandas'
`"D days HH:MM:SS.mmm"` shape.  Only its nonemptiness matters to the
claims below. -/
def pdTimedeltaStr (ms : Int) : String :=
  toString (ms / 86400000) ++ " days " ++
    toString (ms / 3600000 % 24) ++ ":" ++
    toString (ms / 60000 % 60) ++ ":" ++
    toString (ms / 1000 % 60) ++ "." ++
    toString (ms % 1000)

/-- `str()` of a pandas `LapTime` cell: the timedelta rendering, or
`"NaT"` for a missing time (`str(lap.get("LapTime", ""))` without a
`notna` guard). -/
def lapTimeStr : Option Int → String
  | some v => pdTimedeltaStr v
  | none => "NaT"

/-- One row of the `session.laps` table, restricted to the columns this
backend reads.  Time columns are pandas timedeltas in milliseconds with
`none` for `NaT`; numeric columns use `none` for `NaN`. -/
structure Lap where
  driver : String
  team : String
  lapNumber : Int
  lapTime : Option Int
  sector1Time : Option Int
  sector2Time : Option Int
  sector3Time : Option Int
  compound : String
  tyreLife : Option Int
  isPersonalBest : Bool
  position : Option Int
  pitOutTime : Option Int
  pitInTime : Option Int
deriving DecidableEq

/-- `Laps.pick_driver(code)`: the driver's laps, in session order. -/
def pick_driver (laps : List Lap) (code : String) : List Lap :=
  laps.filter (fun l => l.driver == code)

/-- One dictionary emitted per lap by `get_all_laps`. -/
structure LapRecord where
  lap_number : Int
  driver : String
  team : String
  lap_time : Option String
  lap_time_seconds : Option Int
  sector1 : Option String
  sector2 : Option String
  sector3 : Option String
  compound : String
  tyre_life : Int
  is_personal_best : Bool
  position : Option Int
  pit_out_time : Option String
  pit_in_time : Option String
deriving DecidableEq

/-- The per-row dictionary built inside `get_all_laps`: `NaT` time cells
become `null` in both the string and the seconds field, and missing
numeric cells are coerced (`TyreLife → 0`, `Position → null`). -/
def lapRecordOfLap (l : Lap) : LapRecord :=
  { lap_number := l.lapNumber
    driver := l.driver
    team := l.team
    lap_time := l.lapTime.map pdTimedeltaStr
    lap_time_seconds := l.lapTime
    sector1 := l.sector1Time.map pdTimedeltaStr
    sector2 := l.sector2Time.map pdTimedeltaStr
    sector3 := l.sector3Time.map pdTimedeltaStr
    compound := l.compound
    tyre_life := l.tyreLife.getD 0
    is_personal_best := l.isPersonalBest
    position := l.position
    pit_out_time := l.pitOutTime.map pdTimedeltaStr
    pit_in_time := l.pitInTime.map pdTimedeltaStr }

/-- `get_all_laps(session, driver_code)`: all laps of the session,
optionally filtered by an (upper-cased) driver code, one record per
row.  `session.laps` is the `laps` argument; a `None` or empty table
gives `[]`. -/
def get_all_laps (laps : Option (List Lap)) (driver_code : Option String) :
    List LapRecord :=
  match laps with
  | none => []
  | some ls =>
    if ls.isEmpty then []
    else
      let laps2 :=
        if pyStrTruthy driver_code then pick_driver ls (pyUpper (driver_code.getD ""))
        else ls
      laps2.map lapRecordOfLap

/-- pandas ascending sort on the `LapTime` column: missing times sort
last (`na_position="last"`). -/
def lapTimeLe (a b : Option Int) : Bool :=
  match a, b with
  | none, none => true
  | some _, none => true
  | none, some _ => false
  | some x, some y => x ≤ y

/-- Sort order used by `sort_values("LapTime")`, as a relation on laps. -/
def lapRel (a b : Lap) : Prop := lapTimeLe a.lapTime b.lapTime = true

instance : DecidableRel lapRel := fun a b => by
  unfold lapRel; infer_instance

instance : IsTotal Lap lapRel := by
  constructor
  intro a b
  unfold lapRel lapTimeLe
  rcases a.lapTime with _ | x <;> rcases b.lapTime with _ | y <;> simp <;> omega

instance : IsTrans Lap lapRel := by
  constructor
  intro a b c
  unfold lapRel lapTimeLe
  rcases a.lapTime with _ | x <;> rcases b.lapTime with _ | y <;>
    rcases c.lapTime with _ | z <;> simp <;> omega

/-- One dictionary emitted per lap by `get_fastest_laps`. -/
structure RankedLap where
  rank : Nat
  driver : String
  team : String
  lap_number : Int
  lap_time : String
  sector1 : Option String
  sector2 : Option String
  sector3 : Option String
  compound : String
deriving DecidableEq

def rankedOfLap (rank : Nat) (l : Lap) : RankedLap :=
  { rank := rank
    driver := l.driver
    team := l.team
    lap_number := l.lapNumber
    lap_time := lapTimeStr l.lapTime
    sector1 := l.sector1Time.map pdTimedeltaStr
    sector2 := l.sector2Time.map pdTimedeltaStr
    sector3 := l.sector3Time.map pdTimedeltaStr
    compound := l.compound }

/-- `enumerate(laps.iterrows(), 1)`: annotate consecutive rows with ranks
`k, k+1, …`. -/
def rankFrom (k : Nat) : List Lap → List RankedLap
  | [] => []
  | l :: ls => rankedOfLap k l :: rankFrom (k + 1) ls

/-- `get_fastest_laps(session, top_n)`: the quick laps
(`session.laps.pick_quicklaps()`, an external filter, is the `quicklaps`
argument) sorted ascending by lap time, truncated to `top_n`, with
1-based ranks. -/
def get_fastest_laps (quicklaps : List Lap) (top_n : Nat) : List RankedLap :=
  if quicklaps.isEmpty then []
  else rankFrom 1 ((List.insertionSort lapRel quicklaps).take top_n)

/-- A telemetry table (`Lap.get_telemetry()` result): a pandas
`DataFrame` with named numeric columns all of the row count's length.
Values are modelled as integers. -/
structure DataFrame where
  nrows : Nat
  cols : List (String × List Int)
  hcols : ∀ p ∈ cols, (Prod.snd p).length = nrows

/-- `name in df.columns` / `df[name]`: look a column up by name. -/
def DataFrame.col? (t : DataFrame) (name : String) : Option (List Int) :=
  (t.cols.find? (fun p => p.1 == name)).map (fun p => p.2)

/-- `sample_rate = max(1, L // 500)` for a telemetry table of `L` rows. -/
def subsample_stride (L : Nat) : Nat := max 1 (L / 500)

/-- Number of points kept by `[::sample_rate]` on a series of length
`L`: `ceil(L / max(1, L // 500))`. -/
def subsampled_len (L : Nat) : Nat :=
  (L + subsample_stride L - 1) / subsample_stride L

/-- The `"telemetry"` sub-dictionary of a successful
`get_lap_telemetry` result. -/
structure TelemetryData where
  distance : List Int
  speed : List Int
  throttle : List Int
  brake : List Int
  rpm : List Int
  gear : List Int
  drs : List Int
  x : List Int
  y : List Int
deriving DecidableEq

/-- The dictionary returned by `get_lap_telemetry`: optional keys model
the three distinct shapes the source returns (`{"error": …}` for
not-found conditions, `{"error": …, "status": "error"}` for caught
exceptions, and the full success payload with `"status": "success"`). -/
structure TelemetryResponse where
  error : Option String := none
  status : Option String := none
  driver : Option String := none
  lap_number : Option Int := none
  lap_time : Option String := none
  data_points : Option Nat := none
  sampled_points : Option Nat := none
  telemetry : Option TelemetryData := none
deriving DecidableEq

/-- Lines 421–449 of `f1_data_service.py`: fetch the selected lap's
telemetry table and build the success payload.  `gt` is the external
`Lap.get_telemetry()`.  Mandatory columns `Distance`, `Speed`,
`Throttle`, `Brake` raise `KeyError` (caught by the enclosing
`except`, in dict-construction order) when absent; `RPM`, `nGear`,
`DRS`, `X`, `Y` are guarded and fall back to `[]`. -/
def extract_lap_telemetry (gt : Lap → Option DataFrame) (l : Lap)
    (driver_code : String) : TelemetryResponse :=
  match gt l with
  | none => { error := some "No telemetry data available for this lap" }
  | some t =>
    if t.nrows = 0 then { error := some "No telemetry data available for this lap" }
    else
      let rate := max 1 (t.nrows / 500)
      match t.col? "Distance" with
      | none => { error := some "'Distance'", status := some "error" }
      | some dist =>
      match t.col? "Speed" with
      | none => { error := some "'Speed'", status := some "error" }
      | some speed =>
      match t.col? "Throttle" with
      | none => { error := some "'Throttle'", status := some "error" }
      | some throttle =>
      match t.col? "Brake" with
      | none => { error := some "'Brake'", status := some "error" }
      | some brake =>
        { driver := some (pyUpper driver_code)
          lap_number := some l.lapNumber
          lap_time := some (lapTimeStr l.lapTime)
          data_points := some t.nrows
          sampled_points := some (subsampled_len t.nrows)
          telemetry := some
            { distance := everyNth dist rate
              speed := everyNth speed rate
              throttle := everyNth throttle rate
              brake := everyNth brake rate
              rpm := match t.col? "RPM" with
                | some c => everyNth c rate
                | none => []
              gear := match t.col? "nGear" with
                | some c => everyNth c rate
                | none => []
              drs := match t.col? "DRS" with
                | some c => everyNth c rate
                | none => []
              x := match t.col? "X" with
                | some c => everyNth c rate
                | none => []
              y := match t.col? "Y" with
                | some c => everyNth c rate
                | none => [] }
          status := some "success" }

/-- `get_lap_telemetry(session, driver_code, lap_number)`.  `pf` is the
external `Laps.pick_fastest()` (`none` models it returning `None`, in
which case `lap.get_telemetry()` raises and the `except` clause
answers); `gt` is `Lap.get_telemetry()`; `laps` is `session.laps`. -/
def get_lap_telemetry (pf : List Lap → Option Lap) (gt : Lap → Option DataFrame)
    (laps : List Lap) (driver_code : String) (lap_number : Option Int) :
    TelemetryResponse :=
  let driver_laps := pick_driver laps (pyUpper driver_code)
  if driver_laps.isEmpty then
    { error := some ("No laps found for driver " ++ driver_code) }
  else if pyTruthy lap_number then
    match driver_laps.filter (fun l => l.lapNumber == lap_number.getD 0) with
    | [] => { error := some ("Lap " ++ toString (lap_number.getD 0) ++
                " not found for " ++ driver_code) }
    | l :: _ => extract_lap_telemetry gt l driver_code
  else
    match pf driver_laps with
    | none =>
      { error := some "'NoneType' object has no attribute 'get_telemetry'"
        status := some "error" }
    | some l => extract_lap_telemetry gt l driver_code

/-- The dictionary returned by `get_track_coordinates` on success. -/
structure TrackResult where
  event : String
  circuit : String
  xs : List Int
  ys : List Int
  x_min : Int
  x_max : Int
  y_min : Int
  y_max : Int
  width : Int
  height : Int
  total_points : Nat
deriving DecidableEq

/-- Result shapes of `get_track_coordinates`: plain `{"error": …}`
dictionaries for explicit checks, `{"error": …, "status": "error"}` for
caught exceptions, and the success payload. -/
inductive TrackOut where
  | errDict (msg : String)
  | errStatus (msg : String)
  | ok (r : TrackResult)
deriving DecidableEq

/-- `get_track_coordinates(session)`: sub-sample the fastest lap's `X`/`Y`
channels to ~300 points and compute the bounding box.  `pf` is the
external `Laps.pick_fastest()`, `gt` is `Lap.get_telemetry()`, `laps` is
`session.laps`, and `eventName`/`location` stand for
`session.event.EventName` / `session.event.Location`. -/
def get_track_coordinates (pf : List Lap → Option Lap)
    (gt : Lap → Option DataFrame) (laps : List Lap)
    (eventName location : String) : TrackOut :=
  match pf laps with
  | none => .errDict "No lap data available"
  | some fastest_lap =>
    match gt fastest_lap with
    | none => .errDict "No telemetry data available"
    | some t =>
      if t.nrows = 0 then .errDict "No telemetry data available"
      else
        match t.col? "X", t.col? "Y" with
        | some cx, some cy =>
          let rate := max 1 (t.nrows / 300)
          let x_coords := everyNth cx rate
          let y_coords := everyNth cy rate
          match x_coords, y_coords with
          | x0 :: xtl, y0 :: ytl =>
            let xmin := pyMin x0 xtl
            let xmax := pyMax x0 xtl
            let ymin := pyMin y0 ytl
            let ymax := pyMax y0 ytl
            .ok { event := eventName
                  circuit := location
                  xs := x0 :: xtl
                  ys := y0 :: ytl
                  x_min := xmin
                  x_max := xmax
                  y_min := ymin
                  y_max := ymax
                  width := xmax - xmin
                  height := ymax - ymin
                  total_points := (x0 :: xtl).length }
          | _, _ => .errStatus "min() arg is an empty sequence"
        | _, _ => .errDict "Position data not available in telemetry"

/-- One row of `session.results`, restricted to the columns this backend
reads.  `none` models `NaN` cells. -/
structure ResultRow where
  position : Option Int
  driverNumber : String
  abbreviation : String
  firstName : String
  lastName : String
  teamName : String
  teamColor : String
  timeVal : Option Int
  statusVal : Option String
  points : Option Int
  countryCode : Option String
deriving DecidableEq

/-- One dictionary emitted per driver by `get_driver_info` (the fallback
path emits only the `driver_code` key, hence every field is optional). -/
structure DriverRec where
  driver_number : Option String := none
  driver_code : Option String := none
  first_name : Option String := none
  last_name : Option String := none
  full_name : Option String := none
  team : Option String := none
  team_color : Option String := none
  country_code : Option String := none
deriving DecidableEq

/-- Python `f"{first} {last}".strip()`. -/
def pyFullName (first last : String) : String :=
  (first ++ " " ++ last).trim

/-- `get_driver_info(session)`: prefer `session.results`; if that is
`None` or empty, fall back to one minimal record per unique driver code
in `session.laps`.  `results`/`laps` are the session's tables with
`none` for `None`. -/
def get_driver_info (results : Option (List ResultRow))
    (laps : Option (List Lap)) : List DriverRec :=
  let fallback : List DriverRec :=
    match laps with
    | none => []
    | some ls =>
      if ls.isEmpty then []
      else (uniqueFirst (ls.map (fun l => l.driver))).map
        (fun d => { driver_code := some d })
  match results with
  | none => fallback
  | some rs =>
    if rs.isEmpty then fallback
    else rs.map (fun r =>
      { driver_number := some r.driverNumber
        driver_code := some r.abbreviation
        first_name := some r.firstName
        last_name := some r.lastName
        full_name := some (pyFullName r.firstName r.lastName)
        team := some r.teamName
        team_color := some ("#" ++ r.teamColor)
        country_code := some (r.countryCode.getD "") })

/-- A loaded FastF1 session, restricted to what the handlers read.  The
tables are `Option` because FastF1 may hand back `None`. -/
structure SessionData where
  name : String
  eventName : String
  location : String
  dateStr : String
  total_laps : Int
  results : Option (List ResultRow)
  laps : Option (List Lap)

/-- The `"info"` sub-dictionary built by `get_session_info`. -/
structure SessionInfo where
  name : String
  event : String
  date : String
  total_laps : Int
deriving DecidableEq

def get_session_info (s : SessionData) : SessionInfo :=
  { name := s.name
    event := s.eventName
    date := s.dateStr
    total_laps := s.total_laps }

/-- One dictionary emitted per driver by `get_session_results`. -/
structure SessResultRec where
  position : Option Int
  driver_number : String
  driver_code : String
  driver_name : String
  team : String
  team_color : String
  time : Option String
  statusStr : Option String
  points : Int
deriving DecidableEq

/-- `get_session_results(session)`: one record per results row; `None`
or empty results give `[]`. -/
def get_session_results (results : Option (List ResultRow)) :
    List SessResultRec :=
  match results with
  | none => []
  | some rs =>
    if rs.isEmpty then []
    else rs.map (fun r =>
      { position := r.position
        driver_number := r.driverNumber
        driver_code := r.abbreviation
        driver_name := pyFullName r.firstName r.lastName
        team := r.teamName
        team_color := "#" ++ r.teamColor
        time := r.timeVal.map pdTimedeltaStr
        statusStr := r.statusVal
        points := r.points.getD 0 })

/-- An HTTP outcome of a handler: a 200 JSON body, or an
`HTTPException(status_code, detail)`. -/
inductive HttpResponse (α : Type) where
  | ok (body : α)
  | err (status_code : Nat) (message : String)
deriving DecidableEq

/-- The session types accepted by `/api/session/…` (`main.py`). -/
def valid_sessions : List String := ["FP1", "FP2", "FP3", "Q", "S", "R"]

/-- The success body of `/api/session/{season}/{round}/{type}`. -/
structure SessionEnvelope where
  season : Int
  round : Int
  session_type : String
  info : SessionInfo
  results : List SessResultRec
  drivers : List DriverRec
  status : String
deriving DecidableEq

/-- Handler `get_session_data` in `main.py`: validate the session type
(case-insensitively) against `valid_sessions` before any load; then
load (the external `load_session` is the `load` oracle, applied to the
upper-cased type) and shape the response.  A load error becomes 500. -/
def get_session_data (load : String → Except String SessionData)
    (season race_round : Int) (session_type : String) :
    HttpResponse SessionEnvelope :=
  let session_type_upper := pyUpper session_type
  if session_type_upper ∈ valid_sessions then
    match load session_type_upper with
    | .error e => .err 500 e
    | .ok s =>
      .ok { season := season
            round := race_round
            session_type := session_type_upper
            info := get_session_info s
            results := get_session_results s.results
            drivers := get_driver_info s.results s.laps
            status := "success" }
  else
    .err 400 ("Invalid session type. Must be one of: " ++
      String.intercalate ", " valid_sessions)

/-- The success body of `/api/telemetry/…` (the service dictionary is
spliced into the response by `**telemetry`). -/
structure TelemetryEnvelope where
  season : Int
  round : Int
  session_type : String
  payload : TelemetryResponse
deriving DecidableEq

/-- Handler `get_driver_telemetry` in `main.py`: load with telemetry
(oracle `load`), call the service with the upper-cased driver code, map
a `status == "error"` result to 400, and everything else to a 200 body
that splices the service dictionary in. -/
def get_driver_telemetry (pf : List Lap → Option Lap)
    (gt : Lap → Option DataFrame) (load : Except String (List Lap))
    (season race_round : Int) (session_type driver : String)
    (lap_number : Option Int) : HttpResponse TelemetryEnvelope :=
  match load with
  | .error e => .err 500 e
  | .ok laps =>
    let t := get_lap_telemetry pf gt laps (pyUpper driver) lap_number
    if t.status = some "error" then
      .err 400 (t.error.getD "Failed to get telemetry")
    else
      .ok { season := season
            round := race_round
            session_type := pyUpper session_type
            payload := t }

/-- The `"laps"` field of `/api/laps/…`: ranked fastest laps or the full
lap list, depending on `fastest_only`. -/
inductive LapsPayload where
  | ranked (laps : List RankedLap)
  | all (laps : List LapRecord)
deriving DecidableEq

def LapsPayload.size : LapsPayload → Nat
  | .ranked ls => ls.length
  | .all ls => ls.length

/-- The success body of `/api/laps/{season}/{round}/{type}`. -/
structure LapsEnvelope where
  season : Int
  round : Int
  session_type : String
  driver_filter : Option String
  fastest_only : Bool
  laps : LapsPayload
  total_laps : Nat
  status : String
deriving DecidableEq

/-- Handler `get_lap_data` in `main.py`: load the session, then either
`get_fastest_laps(session, top_n=20)` (over the external
`pick_quicklaps()`, oracle `pickQuick`) or
`get_all_laps(session, driver_code=driver)`. -/
def get_lap_data (pickQuick : List Lap → List Lap)
    (load : Except String SessionData) (season race_round : Int)
    (session_type : String) (driver : Option String) (fastest_only : Bool) :
    HttpResponse LapsEnvelope :=
  match load with
  | .error e => .err 500 e
  | .ok s =>
    let lapsData :=
      if fastest_only then
        LapsPayload.ranked (get_fastest_laps (pickQuick (s.laps.getD [])) 20)
      else
        LapsPayload.all (get_all_laps s.laps driver)
    .ok { season := season
          round := race_round
          session_type := pyUpper session_type
          driver_filter := driver
          fastest_only := fastest_only
          laps := lapsData
          total_laps := lapsData.size
          status := "success" }

/-- The success body of `/api/drivers/{season}`. -/
structure DriversEnvelope where
  season : Int
  drivers : List DriverRec
  total_drivers : Nat
  status : String
deriving DecidableEq

/-- Handler `get_season_drivers` in `main.py`: load the race session of
the requested round, falling back to qualifying, then list drivers. -/
def get_season_drivers (loadR loadQ : Except String SessionData)
    (season : Int) : HttpResponse DriversEnvelope :=
  let answer (s : SessionData) : HttpResponse DriversEnvelope :=
    let drivers := get_driver_info s.results s.laps
    .ok { season := season
          drivers := drivers
          total_drivers := drivers.length
          status := "success" }
  match loadR with
  | .ok s => answer s
  | .error _ =>
    match loadQ with
    | .ok s => answer s
    | .error e => .err 500 e

/-! Concrete sample data used to instantiate the theorems below. -/

def sampleLap : Lap :=
  { driver := "VER"
    team := "Red Bull Racing"
    lapNumber := 1
    lapTime := some 90000
    sector1Time := some 30000
    sector2Time := none
    sector3Time := some 29000
    compound := "SOFT"
    tyreLife := some 1
    isPersonalBest := true
    position := some 1
    pitOutTime := none
    pitInTime := none }

def sampleLapNoTime : Lap :=
  { sampleLap with lapNumber := 2, lapTime := none }

def sampleLapHam : Lap :=
  { sampleLap with driver := "HAM", team := "Mercedes", lapTime := some 92000 }

/-- A telemetry table with the four mandatory channels and `X`/`Y`, but
no `RPM`, `nGear` or `DRS` column. -/
def sampleFrame : DataFrame :=
  { nrows := 3
    cols := [("Distance", [0, 10, 20]), ("Speed", [300, 301, 302]),
             ("Throttle", [100, 100, 95]), ("Brake", [0, 0, 1]),
             ("X", [5, 6, 7]), ("Y", [8, 9, 10])]
    hcols := by decide }

/-- A telemetry table with only the four mandatory channels. -/
def mandatoryOnlyFrame : DataFrame :=
  { nrows := 2
    cols := [("Distance", [0, 10]), ("Speed", [280, 281]),
             ("Throttle", [90, 91]), ("Brake", [0, 1])]
    hcols := by decide }

/-- A telemetry table whose `Speed` column is missing. -/
def noSpeedFrame : DataFrame :=
  { nrows := 2
    cols := [("Distance", [0, 10]), ("Throttle", [90, 91]), ("Brake", [0, 1]),
             ("RPM", [9000, 9100]), ("X", [1, 2]), ("Y", [3, 4])]
    hcols := by decide }

/-- The track payload `get_track_coordinates` computes from
`sampleFrame` (3 rows keeps stride 1). -/
def sampleTrackResult : TrackResult :=
  { event := "Bahrain Grand Prix"
    circuit := "Sakhir"
    xs := [5, 6, 7]
    ys := [8, 9, 10]
    x_min := 5
    x_max := 7
    y_min := 8
    y_max := 10
    width := 2
    height := 2
    total_points := 3 }

theorem everyNthAux_eq_drop (n : Nat) :
    ∀ (l : List α) (k : Nat), everyNthAux l n k = everyNth (l.drop k) n := by
  intro l
  induction l with
  | nil => intro k; cases k <;> rfl
  | cons x xs ih =>
    intro k
    cases k with
    | zero => rfl
    | succ k => simpa [everyNthAux] using ih k

theorem everyNth_nil (n : Nat) : everyNth ([] : List α) n = [] := rfl

theorem everyNth_cons (x : α) (xs : List α) (n : Nat) :
    everyNth (x :: xs) n = x :: everyNth (xs.drop (n - 1)) n := by
  show x :: everyNthAux xs n (n - 1) = _
  rw [everyNthAux_eq_drop]

/-- `lst[::n]` of a nonempty list is nonempty. -/
theorem everyNth_ne_nil (x : α) (xs : List α) (n : Nat) :
    everyNth (x :: xs) n ≠ [] := by
  rw [everyNth_cons]; exact List.cons_ne_nil _ _

theorem mem_of_mem_everyNthAux {n : Nat} :
    ∀ {l : List α} {k : Nat} {a : α}, a ∈ everyNthAux l n k → a ∈ l := by
  intro l
  induction l with
  | nil => intro k a h; simp [everyNthAux] at h
  | cons x xs ih =>
    intro k a h
    cases k with
    | zero =>
      rcases List.mem_cons.mp h with rfl | h2
      · exact List.mem_cons_self _ _
      · exact List.mem_cons_of_mem _ (ih h2)
    | succ k => exact List.mem_cons_of_mem _ (ih h)

/-- Every element of `lst[::n]` is an element of `lst`. -/
theorem mem_of_mem_everyNth {l : List α} {n : Nat} {a : α}
    (h : a ∈ everyNth l n) : a ∈ l :=
  mem_of_mem_everyNthAux h

theorem everyNthAux_length (n : Nat) (hn : 1 ≤ n) :
    ∀ (l : List α) (k : Nat),
      (everyNthAux l n k).length = (l.length - k + n - 1) / n := by
  intro l
  induction l with
  | nil =>
    intro k
    simp only [everyNthAux, List.length_nil, Nat.zero_sub]
    exact (Nat.div_eq_of_lt (by omega)).symm
  | cons x xs ih =>
    intro k
    cases k with
    | zero =>
      simp only [everyNthAux, List.length_cons, ih (n - 1), Nat.sub_zero]
      rcases Nat.le_total (n - 1) xs.length with hle | hlt
      · have hnum : xs.length - (n - 1) + n - 1 = xs.length := by omega
        have hnum2 : xs.length + 1 + n - 1 = xs.length + n := by omega
        rw [hnum, hnum2, Nat.add_div_right _ (by omega)]
      · have hnum : xs.length - (n - 1) + n - 1 = n - 1 := by omega
        have hz : (n - 1) / n = 0 := Nat.div_eq_of_lt (by omega)
        have hnum2 : xs.length + 1 + n - 1 = xs.length + n := by omega
        rw [hnum, hz, hnum2, Nat.add_div_right _ (by omega)]
        have : xs.length / n = 0 := Nat.div_eq_of_lt (by omega)
        omega
    | succ k =>
      simp only [everyNthAux, List.length_cons, ih k]
      have hnum : xs.length + 1 - (k + 1) = xs.length - k := by omega
      rw [hnum]

/-- Length of `lst[::n]`: `ceil(L / n)` computed as `(L + n - 1) / n`. -/
theorem everyNth_length (l : List α) (n : Nat) (hn : 1 ≤ n) :
    (everyNth l n).length = (l.length + n - 1) / n := by
  have h := everyNthAux_length n hn l 0
  rwa [Nat.sub_zero] at h

theorem pyMin_spec (xs : List Int) (x : Int) :
    pyMin x xs ≤ x ∧ ∀ b ∈ xs, pyMin x xs ≤ b := by
  induction xs generalizing x with
  | nil => exact ⟨le_refl x, by simp⟩
  | cons y ys ih =>
    have h := ih (min x y)
    have hfold : pyMin x (y :: ys) = pyMin (min x y) ys := rfl
    refine ⟨hfold ▸ le_trans h.1 (min_le_left _ _), ?_⟩
    intro b hb
    rcases List.mem_cons.mp hb with rfl | h2
    · exact hfold ▸ le_trans h.1 (min_le_right _ _)
    · exact hfold ▸ h.2 b h2

theorem pyMin_le {x : Int} {xs : List Int} {b : Int}
    (h : b ∈ x :: xs) : pyMin x xs ≤ b := by
  rcases List.mem_cons.mp h with rfl | h2
  · exact (pyMin_spec xs b).1
  · exact (pyMin_spec xs x).2 b h2

theorem pyMax_spec (xs : List Int) (x : Int) :
    x ≤ pyMax x xs ∧ ∀ b ∈ xs, b ≤ pyMax x xs := by
  induction xs generalizing x with
  | nil => exact ⟨le_refl x, by simp⟩
  | cons y ys ih =>
    have h := ih (max x y)
    have hfold : pyMax x (y :: ys) = pyMax (max x y) ys := rfl
    refine ⟨hfold ▸ le_trans (le_max_left _ _) h.1, ?_⟩
    intro b hb
    rcases List.mem_cons.mp hb with rfl | h2
    · exact hfold ▸ le_trans (le_max_right _ _) h.1
    · exact hfold ▸ h.2 b h2

theorem le_pyMax {x : Int} {xs : List Int} {b : Int}
    (h : b ∈ x :: xs) : b ≤ pyMax x xs := by
  rcases List.mem_cons.mp h with rfl | h2
  · exact (pyMax_spec xs b).1
  · exact (pyMax_spec xs x).2 b h2

theorem uniqueFirst_nil : uniqueFirst [] = [] := by rw [uniqueFirst]

theorem uniqueFirst_cons (x : String) (xs : List String) :
    uniqueFirst (x :: xs) = x :: uniqueFirst (xs.filter (fun y => y ≠ x)) := by
  rw [uniqueFirst]

theorem mem_uniqueFirst {l : List String} {a : String} :
    a ∈ uniqueFirst l ↔ a ∈ l := by
  induction l using uniqueFirst.induct with
  | case1 => rw [uniqueFirst_nil]
  | case2 x xs ih =>
    rw [uniqueFirst_cons]
    constructor
    · intro h
      rcases List.mem_cons.mp h with rfl | h2
      · exact List.mem_cons_self _ _
      · exact List.mem_cons_of_mem _ (List.mem_of_mem_filter (ih.mp h2))
    · intro h
      rcases List.mem_cons.mp h with rfl | h2
      · exact List.mem_cons_self _ _
      · by_cases hax : a = x
        · subst hax; exact List.mem_cons_self _ _
        · exact List.mem_cons_of_mem _
            (ih.mpr (List.mem_filter.mpr ⟨h2, by simpa using hax⟩))

theorem uniqueFirst_nodup (l : List String) : (uniqueFirst l).Nodup := by
  induction l using uniqueFirst.induct with
  | case1 => rw [uniqueFirst_nil]; exact List.nodup_nil
  | case2 x xs ih =>
    rw [uniqueFirst_cons]
    refine List.nodup_cons.mpr ⟨?_, ih⟩
    intro hmem
    have := List.mem_filter.mp (mem_uniqueFirst.mp hmem)
    simp at this

theorem uniqueFirst_ne_nil (x : String) (xs : List String) :
    uniqueFirst (x :: xs) ≠ [] := by
  rw [uniqueFirst_cons]; exact List.cons_ne_nil _ _

theorem uniqueFirst_eq_nil_iff {l : List String} :
    uniqueFirst l = [] ↔ l = [] := by
  cases l with
  | nil => simp [uniqueFirst_nil]
  | cons x xs =>
    simp only [uniqueFirst_cons]
    constructor
    · intro h; exact absurd h (List.cons_ne_nil _ _)
    · intro h; exact absurd h (List.cons_ne_nil _ _)

theorem pdTimedeltaStr_ne_empty (ms : Int) : pdTimedeltaStr ms ≠ "" := by
  intro h
  have hlen := congrArg String.length h
  simp only [pdTimedeltaStr, String.length_append] at hlen
  have h6 : (" days " : String).length = 6 := rfl
  have h0 : ("" : String).length = 0 := rfl
  rw [h6, h0] at hlen
  omega

theorem DataFrame.col?_length {t : DataFrame} {name : String} {c : List Int}
    (h : t.col? name = some c) : c.length = t.nrows := by
  unfold DataFrame.col? at h
  rcases hf : t.cols.find? (fun p => p.1 == name) with _ | p
  · rw [hf] at h; simp at h
  · rw [hf] at h
    have hc : p.2 = c := by simpa using h
    exact hc ▸ t.hcols p (List.mem_of_find?_eq_some hf)

theorem subsample_stride_pos (L : Nat) : 1 ≤ subsample_stride L :=
  le_max_left _ _

theorem everyNth_stride_length (l : List α) :
    (everyNth l (subsample_stride l.length)).length = subsampled_len l.length := by
  rw [everyNth_length _ _ (subsample_stride_pos _), subsampled_len]

theorem rankFrom_length (k : Nat) (ls : List Lap) :
    (rankFrom k ls).length = ls.length := by
  induction ls generalizing k with
  | nil => rfl
  | cons l ls ih => simp [rankFrom, ih]

theorem rankFrom_map_rank (k : Nat) (ls : List Lap) :
    (rankFrom k ls).map (fun r => r.rank) = List.range' k ls.length := by
  induction ls generalizing k with
  | nil => rfl
  | cons l ls ih =>
    simp only [rankFrom, List.map_cons, List.length_cons, List.range'_succ]
    exact congrArg _ (ih (k + 1))

/-- Sub-sampling a column of a telemetry table of `L` rows with
`sample_rate = max(1, L // 500)` keeps `ceil(len / max(1, len // 500))`
points, `len` being the column's length (equal to `L`). -/
theorem everyNth_col_length {t : DataFrame} {name : String} {c : List Int}
    (h : t.col? name = some c) :
    (everyNth c (max 1 (t.nrows / 500))).length = subsampled_len c.length := by
  have hc := DataFrame.col?_length h
  rw [← hc]
  exact everyNth_stride_length c

/-- Claim C2: for every telemetry channel of length `L` present in the
lap's telemetry table, the sub-sampled array in a successful
`get_lap_telemetry` payload has length `ceil(L / max(1, L // 500))`. -/
theorem telemetry_subsample_length (gt : Lap → Option DataFrame) (l : Lap)
    (code : String) (t : DataFrame) (dist speed throttle brake : List Int)
    (hgt : gt l = some t) (hnz : t.nrows ≠ 0)
    (hd : t.col? "Distance" = some dist) (hs : t.col? "Speed" = some speed)
    (hth : t.col? "Throttle" = some throttle)
    (hb : t.col? "Brake" = some brake) :
    ∃ td, (extract_lap_telemetry gt l code).telemetry = some td ∧
      td.distance.length = subsampled_len dist.length ∧
      td.speed.length = subsampled_len speed.length ∧
      td.throttle.length = subsampled_len throttle.length ∧
      td.brake.length = subsampled_len brake.length ∧
      (∀ c, t.col? "RPM" = some c → td.rpm.length = subsampled_len c.length) ∧
      (∀ c, t.col? "nGear" = some c → td.gear.length = subsampled_len c.length) ∧
      (∀ c, t.col? "DRS" = some c → td.drs.length = subsampled_len c.length) ∧
      (∀ c, t.col? "X" = some c → td.x.length = subsampled_len c.length) ∧
      (∀ c, t.col? "Y" = some c → td.y.length = subsampled_len c.length) := by
  unfold extract_lap_telemetry
  rw [hgt]
  simp only [hnz, if_false, hd, hs, hth, hb]
  refine ⟨_, rfl, everyNth_col_length hd, everyNth_col_length hs,
    everyNth_col_length hth, everyNth_col_length hb, ?_, ?_, ?_, ?_, ?_⟩ <;>
    · intro c hc
      simp only [hc]
      exact everyNth_col_length hc

/-- Witness for C2 on a concrete 3-row table without optional RPM data. -/
theorem telemetry_subsample_length_witness :
    ∃ td, (extract_lap_telemetry (fun _ => some sampleFrame) sampleLap
        "VER").telemetry = some td ∧
      td.distance.length = subsampled_len 3 ∧
      td.speed.length = subsampled_len 3 ∧
      td.throttle.length = subsampled_len 3 ∧
      td.brake.length = subsampled_len 3 ∧
      (∀ c, sampleFrame.col? "RPM" = some c →
        td.rpm.length = subsampled_len c.length) ∧
      (∀ c, sampleFrame.col? "nGear" = some c →
        td.gear.length = subsampled_len c.length) ∧
      (∀ c, sampleFrame.col? "DRS" = some c →
        td.drs.length = subsampled_len c.length) ∧
      (∀ c, sampleFrame.col? "X" = some c →
        td.x.length = subsampled_len c.length) ∧
      (∀ c, sampleFrame.col? "Y" = some c →
        td.y.length = subsampled_len c.length) :=
  telemetry_subsample_length (fun _ => some sampleFrame) sampleLap "VER"
    sampleFrame [0, 10, 20] [300, 301, 302] [100, 100, 95] [0, 0, 1]
    rfl (by decide) (by decide) (by decide) (by decide) (by decide)

/-- Claim C3 as stated is false: the sub-sampled length is not monotone
in the channel length; at `L₁ = 999 ≤ 1000 = L₂` the length drops from
999 to 500. -/
theorem subsampled_len_not_monotone :
    (999 : Nat) ≤ 1000 ∧ ¬ subsampled_len 999 ≤ subsampled_len 1000 := by
  decide

/-- Claim C3 (amended): the sub-sampled length
`ceil(L / max(1, L // 500))` is not monotone in `L`, but it is bounded:
`min L 500 ≤ subsampled_len L ≤ 999` for every channel length `L`. -/
theorem subsampled_len_bounds (L : Nat) :
    min L 500 ≤ subsampled_len L ∧ subsampled_len L ≤ 999 := by
  unfold subsampled_len subsample_stride
  by_cases h : L < 500
  · have h0 : L / 500 = 0 := Nat.div_eq_of_lt h
    have hmax : max 1 (0 : Nat) = 1 := rfl
    rw [h0, hmax, Nat.add_sub_cancel, Nat.div_one]
    omega
  · push_neg at h
    have hNpos : 0 < L / 500 := (Nat.one_le_div_iff (by norm_num)).mpr h
    have hN : max 1 (L / 500) = L / 500 := max_eq_right hNpos
    rw [hN]
    have hdm := Nat.div_add_mod L 500
    have hmod : L % 500 < 500 := Nat.mod_lt _ (by norm_num)
    constructor
    · have hle : 500 ≤ (L + L / 500 - 1) / (L / 500) :=
        (Nat.le_div_iff_mul_le hNpos).mpr (by omega)
      have hmin : min L 500 ≤ 500 := min_le_right _ _
      omega
    · have hlt : L + L / 500 - 1 < 1000 * (L / 500) := by omega
      have hdivlt : (L + L / 500 - 1) / (L / 500) < 1000 :=
        (Nat.div_lt_iff_lt_mul hNpos).mpr hlt
      omega

/-- Claim C4 as stated is false: a missing `Speed` column does not yield
a success with an empty `speed` array; the unguarded `telemetry["Speed"]`
raises `KeyError`, which the `except` clause turns into an error result. -/
theorem missing_speed_channel_errors :
    noSpeedFrame.col? "Speed" = none ∧
    get_lap_telemetry (fun ls => ls.head?) (fun _ => some noSpeedFrame)
        [sampleLap] "VER" none =
      { error := some "'Speed'", status := some "error" } := by
  decide

/-- Claim C4 (amended): only the guarded channels `RPM`, `nGear` (gear),
`DRS`, `X`, `Y` fall back to empty arrays when absent — the result is
still a success with no error; `Distance`, `Speed`, `Throttle`, `Brake`
are mandatory. -/
theorem optional_channels_empty (gt : Lap → Option DataFrame) (l : Lap)
    (code : String) (t : DataFrame) (dist speed throttle brake : List Int)
    (hgt : gt l = some t) (hnz : t.nrows ≠ 0)
    (hd : t.col? "Distance" = some dist) (hs : t.col? "Speed" = some speed)
    (hth : t.col? "Throttle" = some throttle)
    (hb : t.col? "Brake" = some brake) :
    (extract_lap_telemetry gt l code).status = some "success" ∧
    (extract_lap_telemetry gt l code).error = none ∧
    ∃ td, (extract_lap_telemetry gt l code).telemetry = some td ∧
      (t.col? "RPM" = none → td.rpm = []) ∧
      (t.col? "nGear" = none → td.gear = []) ∧
      (t.col? "DRS" = none → td.drs = []) ∧
      (t.col? "X" = none → td.x = []) ∧
      (t.col? "Y" = none → td.y = []) := by
  unfold extract_lap_telemetry
  rw [hgt]
  simp only [hnz, if_false]
  rw [hd, hs, hth, hb]
  refine ⟨rfl, rfl, _, rfl, ?_, ?_, ?_, ?_, ?_⟩ <;>
    · intro hnone
      simp only [hnone]

/-- Witness for the amended C4 on a table with only the four mandatory
channels: the result is a success and all five optional arrays are
empty. -/
theorem optional_channels_empty_witness :
    (extract_lap_telemetry (fun _ => some mandatoryOnlyFrame) sampleLap
        "VER").status = some "success" ∧
    (extract_lap_telemetry (fun _ => some mandatoryOnlyFrame) sampleLap
        "VER").error = none ∧
    ∃ td, (extract_lap_telemetry (fun _ => some mandatoryOnlyFrame)
        sampleLap "VER").telemetry = some td ∧
      (mandatoryOnlyFrame.col? "RPM" = none → td.rpm = []) ∧
      (mandatoryOnlyFrame.col? "nGear" = none → td.gear = []) ∧
      (mandatoryOnlyFrame.col? "DRS" = none → td.drs = []) ∧
      (mandatoryOnlyFrame.col? "X" = none → td.x = []) ∧
      (mandatoryOnlyFrame.col? "Y" = none → td.y = []) :=
  optional_channels_empty (fun _ => some mandatoryOnlyFrame) sampleLap "VER"
    mandatoryOnlyFrame [0, 10] [280, 281] [90, 91] [0, 1]
    rfl (by decide) (by decide) (by decide) (by decide) (by decide)

/-- Claim C6: in every record emitted by `get_all_laps`, the
`lap_time_seconds` field is `null` exactly when the `lap_time` string is
`null` or empty; a present `LapTime` yields a non-empty string and the
corresponding seconds value. -/
theorem lap_time_seconds_null_iff (laps : Option (List Lap))
    (code : Option String) (rec : LapRecord)
    (h : rec ∈ get_all_laps laps code) :
    (rec.lap_time_seconds = none ↔
      rec.lap_time = none ∨ rec.lap_time = some "") ∧
    (∀ s, rec.lap_time = some s → s ≠ "") ∧
    (∀ v, rec.lap_time_seconds = some v →
      rec.lap_time = some (pdTimedeltaStr v)) := by
  match laps with
  | none => simp [get_all_laps] at h
  | some ls =>
    simp only [get_all_laps] at h
    split at h
    · simp at h
    · rcases List.mem_map.mp h with ⟨l, _, rfl⟩
      rcases hlt : l.lapTime with _ | v
      · refine ⟨?_, ?_, ?_⟩ <;> simp [lapRecordOfLap, hlt]
      · have hne := pdTimedeltaStr_ne_empty v
        refine ⟨?_, ?_, ?_⟩
        · simp [lapRecordOfLap, hlt, hne]
        · intro s hsome
          simp only [lapRecordOfLap, hlt, Option.map_some'] at hsome
          cases hsome
          exact hne
        · intro w hsome
          simp only [lapRecordOfLap, hlt] at hsome ⊢
          cases hsome
          rfl

/-- Witness for C6 on a session with one timed and one `NaT` lap. -/
theorem lap_time_seconds_null_iff_witness :
    ((lapRecordOfLap sampleLap).lap_time_seconds = none ↔
      (lapRecordOfLap sampleLap).lap_time = none ∨
      (lapRecordOfLap sampleLap).lap_time = some "") ∧
    (∀ s, (lapRecordOfLap sampleLap).lap_time = some s → s ≠ "") ∧
    (∀ v, (lapRecordOfLap sampleLap).lap_time_seconds = some v →
      (lapRecordOfLap sampleLap).lap_time = some (pdTimedeltaStr v)) :=
  lap_time_seconds_null_iff (some [sampleLap, sampleLapNoTime]) none
    (lapRecordOfLap sampleLap) (by decide)

/-- Claim C7: `/api/session/…` rejects any session type whose uppercase
form is outside `{FP1, FP2, FP3, Q, S, R}` with a 400 — for every
loader, i.e. without loading — and accepts any casing of a valid type
(never answering the validation 400). -/
theorem session_type_validation (load : String → Except String SessionData)
    (season race_round : Int) (st : String) :
    (pyUpper st ∉ valid_sessions →
      ∀ load2 : String → Except String SessionData,
        get_session_data load2 season race_round st =
          .err 400 "Invalid session type. Must be one of: FP1, FP2, FP3, Q, S, R") ∧
    (pyUpper st ∈ valid_sessions →
      ∀ m, get_session_data load season race_round st ≠ .err 400 m) := by
  constructor
  · intro hinv load2
    unfold get_session_data
    rw [if_neg hinv]
    have hmsg : "Invalid session type. Must be one of: " ++
        String.intercalate ", " valid_sessions =
        "Invalid session type. Must be one of: FP1, FP2, FP3, Q, S, R" := by
      decide
    rw [hmsg]
  · intro hval m
    unfold get_session_data
    rw [if_pos hval]
    cases load (pyUpper st) with
    | error e =>
      intro hc
      injection hc with h1 _
      omega
    | ok s =>
      intro hc
      exact HttpResponse.noConfusion hc

/-- Witness for C7: `"xyz"` is rejected with 400, `"r"` (lower-case
race) is accepted. -/
theorem session_type_validation_witness :
    get_session_data (fun _ => Except.error "boom") 2023 1 "xyz" =
      .err 400 "Invalid session type. Must be one of: FP1, FP2, FP3, Q, S, R" ∧
    ∀ m, get_session_data (fun _ => Except.error "boom") 2023 1 "r" ≠
      .err 400 m :=
  ⟨(session_type_validation (fun _ => Except.error "boom") 2023 1 "xyz").1
      (by decide) (fun _ => Except.error "boom"),
    (session_type_validation (fun _ => Except.error "boom") 2023 1 "r").2
      (by decide)⟩

/-- Claim C9: `lap_number = 0` is falsy in `if lap_number:`, so it is
treated exactly like an absent lap number — the fastest-lap branch runs
(no `"Lap 0 not found"` error). -/
theorem lap_zero_selects_fastest (pf : List Lap → Option Lap)
    (gt : Lap → Option DataFrame) (laps : List Lap) (code : String)
    (h : pick_driver laps (pyUpper code) ≠ []) :
    get_lap_telemetry pf gt laps code (some 0) =
      get_lap_telemetry pf gt laps code none ∧
    get_lap_telemetry pf gt laps code (some 0) =
      (match pf (pick_driver laps (pyUpper code)) with
       | none =>
         { error := some "'NoneType' object has no attribute 'get_telemetry'"
           status := some "error" }
       | some l => extract_lap_telemetry gt l code) := by
  have hne : ¬ (pick_driver laps (pyUpper code)).isEmpty := by
    simpa [List.isEmpty_iff] using h
  refine ⟨rfl, ?_⟩
  simp only [get_lap_telemetry]
  rw [if_neg hne, if_neg (by decide : ¬ (pyTruthy (some 0) = true))]

/-- Witness for C9 with a one-lap session for driver `VER`. -/
theorem lap_zero_selects_fastest_witness :
    get_lap_telemetry List.head? (fun _ => none) [sampleLap] "VER" (some 0) =
      get_lap_telemetry List.head? (fun _ => none) [sampleLap] "VER" none ∧
    get_lap_telemetry List.head? (fun _ => none) [sampleLap] "VER" (some 0) =
      (match List.head? (pick_driver [sampleLap] (pyUpper "VER")) with
       | none =>
         { error := some "'NoneType' object has no attribute 'get_telemetry'"
           status := some "error" }
       | some l => extract_lap_telemetry (fun _ => none) l "VER") :=
  lap_zero_selects_fastest List.head? (fun _ => none) [sampleLap] "VER"
    (by decide)

/-- Claim C5: with at least one quick lap, `get_fastest_laps` (called
with `top_n = 20` by `/api/laps/…?fastest_only=true`) returns the quick
laps sorted ascending by lap time, truncated to at most the top 20, with
contiguous ranks `1..N`. -/
theorem fastest_laps_sorted_ranked (ql : List Lap) (h : ql ≠ []) :
    get_fastest_laps ql 20 =
      rankFrom 1 ((List.insertionSort lapRel ql).take 20) ∧
    List.Sorted lapRel ((List.insertionSort lapRel ql).take 20) ∧
    (get_fastest_laps ql 20).length = min 20 ql.length ∧
    (get_fastest_laps ql 20).map (fun r => r.rank) =
      List.range' 1 (get_fastest_laps ql 20).length ∧
    (∀ l ∈ (List.insertionSort lapRel ql).take 20, l ∈ ql) := by
  have hne : ¬ ql.isEmpty := by simpa [List.isEmpty_iff] using h
  have hunfold : get_fastest_laps ql 20 =
      rankFrom 1 ((List.insertionSort lapRel ql).take 20) := by
    unfold get_fastest_laps
    rw [if_neg hne]
  have hsortlen : (List.insertionSort lapRel ql).length = ql.length :=
    (List.perm_insertionSort lapRel ql).length_eq
  refine ⟨hunfold, ?_, ?_, ?_, ?_⟩
  · exact List.Pairwise.sublist (List.take_sublist 20 _)
      (List.sorted_insertionSort lapRel ql)
  · rw [hunfold, rankFrom_length, List.length_take, hsortlen]
  · rw [hunfold, rankFrom_map_rank, rankFrom_length]
  · intro l hl
    exact (List.perm_insertionSort lapRel ql).mem_iff.mp
      (List.take_subset 20 _ hl)

/-- Witness for C5 on a two-lap session (`HAM 92s` before `VER 90s`). -/
theorem fastest_laps_sorted_ranked_witness :
    get_fastest_laps [sampleLapHam, sampleLap] 20 =
      rankFrom 1 ((List.insertionSort lapRel [sampleLapHam, sampleLap]).take 20) ∧
    List.Sorted lapRel
      ((List.insertionSort lapRel [sampleLapHam, sampleLap]).take 20) ∧
    (get_fastest_laps [sampleLapHam, sampleLap] 20).length =
      min 20 ([sampleLapHam, sampleLap] : List Lap).length ∧
    (get_fastest_laps [sampleLapHam, sampleLap] 20).map (fun r => r.rank) =
      List.range' 1 (get_fastest_laps [sampleLapHam, sampleLap] 20).length ∧
    (∀ l ∈ (List.insertionSort lapRel [sampleLapHam, sampleLap]).take 20,
      l ∈ ([sampleLapHam, sampleLap] : List Lap)) :=
  fastest_laps_sorted_ranked [sampleLapHam, sampleLap] (by decide)

/-- Claim C8: when the session's structured results are `None` or empty
but lap data exists, `get_driver_info` still returns a non-empty list
with exactly one record per unique driver code in the lap data. -/
theorem driver_fallback_from_laps (results : Option (List ResultRow))
    (ls : List Lap) (hres : results = none ∨ results = some [])
    (hlaps : ls ≠ []) :
    get_driver_info results (some ls) ≠ [] ∧
    (get_driver_info results (some ls)).map (fun d => d.driver_code) =
      (uniqueFirst (ls.map (fun l => l.driver))).map some ∧
    ((get_driver_info results (some ls)).map (fun d => d.driver_code)).Nodup ∧
    (∀ c : String,
      some c ∈ (get_driver_info results (some ls)).map (fun d => d.driver_code)
        ↔ c ∈ ls.map (fun l => l.driver)) := by
  have hne : ¬ ls.isEmpty := by simpa [List.isEmpty_iff] using hlaps
  have hfb : get_driver_info results (some ls) =
      (uniqueFirst (ls.map (fun l => l.driver))).map
        (fun d => ({ driver_code := some d } : DriverRec)) := by
    rcases hres with rfl | rfl
    · simp only [get_driver_info]
      rw [if_neg hne]
    · simp only [get_driver_info, List.isEmpty_nil, if_true]
      rw [if_neg hne]
  rw [hfb]
  have hmap : ((uniqueFirst (ls.map (fun l => l.driver))).map
        (fun d => ({ driver_code := some d } : DriverRec))).map
        (fun d => d.driver_code) =
      (uniqueFirst (ls.map (fun l => l.driver))).map some := by
    rw [List.map_map]
    rfl
  refine ⟨?_, hmap, ?_, ?_⟩
  · intro hcontra
    have h1 := List.map_eq_nil_iff.mp hcontra
    have h2 := uniqueFirst_eq_nil_iff.mp h1
    exact hlaps (List.map_eq_nil_iff.mp h2)
  · rw [hmap]
    exact (uniqueFirst_nodup _).map (Option.some_injective _)
  · intro c
    rw [hmap]
    constructor
    · intro hc
      rcases List.mem_map.mp hc with ⟨d, hd, hdc⟩
      cases hdc
      exact mem_uniqueFirst.mp hd
    · intro hc
      exact List.mem_map.mpr ⟨c, mem_uniqueFirst.mpr hc, rfl⟩

/-- Witness for C8 with empty results and laps by `VER` (twice) and
`HAM`. -/
theorem driver_fallback_from_laps_witness :
    get_driver_info none (some [sampleLap, sampleLapNoTime, sampleLapHam]) ≠ [] ∧
    (get_driver_info none
        (some [sampleLap, sampleLapNoTime, sampleLapHam])).map
        (fun d => d.driver_code) =
      (uniqueFirst (([sampleLap, sampleLapNoTime, sampleLapHam] : List Lap).map
        (fun l => l.driver))).map some ∧
    ((get_driver_info none
        (some [sampleLap, sampleLapNoTime, sampleLapHam])).map
        (fun d => d.driver_code)).Nodup ∧
    (∀ c : String,
      some c ∈ (get_driver_info none
          (some [sampleLap, sampleLapNoTime, sampleLapHam])).map
          (fun d => d.driver_code)
        ↔ c ∈ ([sampleLap, sampleLapNoTime, sampleLapHam] : List Lap).map
            (fun l => l.driver)) :=
  driver_fallback_from_laps none [sampleLap, sampleLapNoTime, sampleLapHam]
    (Or.inl rfl) (by decide)

/-- Claim C10: every successful `get_track_coordinates` result is
internally consistent — each coordinate lies within the returned
bounds, width and height are the non-negative box dimensions, and
`total_points` equals the common length of the `x` and `y` arrays. -/
theorem track_bounds_consistent (pf : List Lap → Option Lap)
    (gt : Lap → Option DataFrame) (laps : List Lap)
    (eventName location : String) (r : TrackResult)
    (h : get_track_coordinates pf gt laps eventName location = .ok r) :
    (∀ v ∈ r.xs, r.x_min ≤ v ∧ v ≤ r.x_max) ∧
    (∀ v ∈ r.ys, r.y_min ≤ v ∧ v ≤ r.y_max) ∧
    0 ≤ r.width ∧ 0 ≤ r.height ∧
    r.width = r.x_max - r.x_min ∧ r.height = r.y_max - r.y_min ∧
    r.total_points = r.xs.length ∧ r.xs.length = r.ys.length := by
  simp only [get_track_coordinates] at h
  split at h
  · exact absurd h (by simp)
  rename_i fl hpf
  split at h
  · exact absurd h (by simp)
  rename_i t hgt
  split at h
  · exact absurd h (by simp)
  rename_i hz
  split at h
  rotate_left
  · exact absurd h (by simp)
  rename_i cx cy hx hy
  split at h
  rotate_left
  · exact absurd h (by simp)
  rename_i x0 xtl y0 ytl hevx hevy
  have hcx := DataFrame.col?_length hx
  have hcy := DataFrame.col?_length hy
  have hrate1 : 1 ≤ max 1 (t.nrows / 300) := le_max_left _ _
  injection h with hrec
  subst hrec
  refine ⟨?_, ?_, ?_, ?_, rfl, rfl, rfl, ?_⟩
  · intro v hv
    exact ⟨pyMin_le hv, le_pyMax hv⟩
  · intro v hv
    exact ⟨pyMin_le hv, le_pyMax hv⟩
  · have h1 := pyMin_le (List.mem_cons_self x0 xtl)
    have h2 := le_pyMax (List.mem_cons_self x0 xtl)
    simp only
    omega
  · have h1 := pyMin_le (List.mem_cons_self y0 ytl)
    have h2 := le_pyMax (List.mem_cons_self y0 ytl)
    simp only
    omega
  · rw [← hevx, ← hevy, everyNth_length cx _ hrate1,
      everyNth_length cy _ hrate1, hcx, hcy]

/-- Witness for C10 on a concrete 3-row table with `X`/`Y` channels. -/
theorem track_bounds_consistent_witness :
    get_track_coordinates List.head? (fun _ => some sampleFrame) [sampleLap]
      "Bahrain Grand Prix" "Sakhir" = .ok sampleTrackResult ∧
    ((∀ v ∈ sampleTrackResult.xs,
        sampleTrackResult.x_min ≤ v ∧ v ≤ sampleTrackResult.x_max) ∧
      (∀ v ∈ sampleTrackResult.ys,
        sampleTrackResult.y_min ≤ v ∧ v ≤ sampleTrackResult.y_max) ∧
      0 ≤ sampleTrackResult.width ∧ 0 ≤ sampleTrackResult.height ∧
      sampleTrackResult.width =
        sampleTrackResult.x_max - sampleTrackResult.x_min ∧
      sampleTrackResult.height =
        sampleTrackResult.y_max - sampleTrackResult.y_min ∧
      sampleTrackResult.total_points = sampleTrackResult.xs.length ∧
      sampleTrackResult.xs.length = sampleTrackResult.ys.length) :=
  ⟨by decide,
    track_bounds_consistent List.head? (fun _ => some sampleFrame) [sampleLap]
      "Bahrain Grand Prix" "Sakhir" sampleTrackResult (by decide)⟩

/-- Claim C1 as stated is false: when the driver has zero laps, the
service answers `{"error": …}` without a `"status"` key, the handler's
`status == "error"` check does not fire, and the endpoint responds
HTTP 200 with the error body spliced in — not 400 or 500. -/
theorem telemetry_notfound_answers_200 :
    pick_driver ([] : List Lap) (pyUpper (pyUpper "VER")) = [] ∧
    get_driver_telemetry (fun _ => none) (fun _ => none) (Except.ok [])
        2023 1 "R" "VER" none =
      .ok { season := 2023
            round := 1
            session_type := "R"
            payload := { error := some "No laps found for driver VER" } } := by
  decide

/-- Claim C1 (amended): a "not found" condition in `get_lap_telemetry`
(zero laps for the driver, or the requested lap number missing) yields a
dictionary whose `error` key carries the upstream message and which has
no `status` key, so `/api/telemetry/…` answers HTTP 200 with that
dictionary spliced into the body — never 400 or 500 for these
conditions. -/
theorem telemetry_notfound_is_ok_with_error_body (pf : List Lap → Option Lap)
    (gt : Lap → Option DataFrame) (laps : List Lap) (season race_round : Int)
    (session_type d : String) (ln : Option Int)
    (h : pick_driver laps (pyUpper (pyUpper d)) = [] ∨
      (pyTruthy ln = true ∧
        (pick_driver laps (pyUpper (pyUpper d))).filter
          (fun l => l.lapNumber == ln.getD 0) = [])) :
    (get_lap_telemetry pf gt laps (pyUpper d) ln).error.isSome = true ∧
    (get_lap_telemetry pf gt laps (pyUpper d) ln).status = none ∧
    get_driver_telemetry pf gt (Except.ok laps) season race_round
        session_type d ln =
      .ok { season := season
            round := race_round
            session_type := pyUpper session_type
            payload := get_lap_telemetry pf gt laps (pyUpper d) ln } := by
  have hkey : ∃ msg, get_lap_telemetry pf gt laps (pyUpper d) ln =
      { error := some msg } := by
    simp only [get_lap_telemetry]
    by_cases hemp : (pick_driver laps (pyUpper (pyUpper d))).isEmpty
    · rw [if_pos hemp]
      exact ⟨_, rfl⟩
    · rcases h with hnil | ⟨htr, hfil⟩
      · exact absurd (by rw [hnil]; rfl) hemp
      · rw [if_neg hemp, if_pos htr, hfil]
        exact ⟨_, rfl⟩
  obtain ⟨msg, hmsg⟩ := hkey
  refine ⟨by rw [hmsg]; rfl, by rw [hmsg], ?_⟩
  simp only [get_driver_telemetry, hmsg]
  rw [if_neg (by simp)]

/-- Witness for the amended C1: a request for a driver with zero laps
gets a 200 whose body carries the upstream error string. -/
theorem telemetry_notfound_is_ok_with_error_body_witness :
    (get_lap_telemetry (fun _ => none) (fun _ => none) [sampleLapHam]
        (pyUpper "VER") none).error.isSome = true ∧
    (get_lap_telemetry (fun _ => none) (fun _ => none) [sampleLapHam]
        (pyUpper "VER") none).status = none ∧
    get_driver_telemetry (fun _ => none) (fun _ => none)
        (Except.ok [sampleLapHam]) 2023 1 "R" "VER" none =
      .ok { season := 2023
            round := 1
            session_type := pyUpper "R"
            payload := get_lap_telemetry (fun _ => none) (fun _ => none)
              [sampleLapHam] (pyUpper "VER") none } :=
  telemetry_notfound_is_ok_with_error_body (fun _ => none) (fun _ => none)
    [sampleLapHam] 2023 1 "R" "VER" none (Or.inl (by decide))

end F1
